import Mathlib

/-!
Shallow embedding of the design-pattern demo repository
(Singleton, Factory, Observer, Command, Adapter, Decorator),
with theorems settling the specification claims.
-/

/-! ## Singleton: DatabaseConnection -/

/-- State of the lazy singleton holder: a fresh-reference counter, the
cached instance (a reference identity, `none` before first construction),
and the number of constructor runs so far. -/
structure SingletonState where
  nextId : Nat
  cached : Option Nat
  constructions : Nat
deriving DecidableEq

/-- The process-start state: no instance constructed yet. -/
def SingletonState.start : SingletonState :=
  { nextId := 0, cached := none, constructions := 0 }

/-- `DatabaseConnection.getInstance`: return the cached instance if present,
otherwise construct a fresh one, cache it and return it. -/
def getInstance (s : SingletonState) : Nat × SingletonState :=
  match s.cached with
  | some i => (i, s)
  | none =>
      (s.nextId,
       { nextId := s.nextId + 1, cached := some s.nextId,
         constructions := s.constructions + 1 })

/-- Call `getInstance` `n` times, collecting the returned references. -/
def callGetInstance : Nat → SingletonState → List Nat × SingletonState
  | 0, s => ([], s)
  | n + 1, s =>
      ((getInstance s).1 :: (callGetInstance n (getInstance s).2).1,
       (callGetInstance n (getInstance s).2).2)

/-! ## Factory: VehicleFactory -/

inductive Vehicle where
  | car
  | bike
deriving DecidableEq

/-- `Vehicle.drive`: the console line each concrete vehicle produces. -/
def Vehicle.drive : Vehicle → String
  | .car => "Driving a car"
  | .bike => "Riding a bike"

/-- `VehicleFactory.createVehicle`: select a variant by tag, throwing
("Vehicle type not supported") on any other tag. -/
def createVehicle (tag : String) : Except String Vehicle :=
  if tag = "car" then Except.ok Vehicle.car
  else if tag = "bike" then Except.ok Vehicle.bike
  else Except.error "Vehicle type not supported"

/-! ## Observer: Stock -/

/-- The subject: an ordered list of observer references and a price,
initialised to 100. -/
structure Stock where
  observers : List Nat
  price : Int
deriving DecidableEq

/-- `new Stock()`: empty observer list, price 100. -/
def Stock.new : Stock := { observers := [], price := 100 }

/-- `Stock.addObserver`: push onto the observer list. -/
def Stock.addObserver (o : Nat) (s : Stock) : Stock :=
  { s with observers := s.observers ++ [o] }

/-- `Stock.removeObserver`: keep only observers not reference-equal to `o`. -/
def Stock.removeObserver (o : Nat) (s : Stock) : Stock :=
  { s with observers := s.observers.filter (fun x => x != o) }

/-- `Stock.notifyObservers`: call `update(this.price)` on every observer in
order; modelled as the list of (observer, value) invocations. -/
def Stock.notifyObservers (s : Stock) : List (Nat × Int) :=
  s.observers.map (fun o => (o, s.price))

/-- `Stock.setPrice`: store the new price, then notify all observers.
Returns the new state and the invocation list. -/
def Stock.setPrice (p : Int) (s : Stock) : Stock × List (Nat × Int) :=
  let s1 := { s with price := p }
  (s1, s1.notifyObservers)

/-! ## Command: RemoteControl -/

/-- Concrete commands, each holding its receiver `Light` (a reference). -/
inductive Command where
  | lightOn (light : Nat)
  | lightOff (light : Nat)
deriving DecidableEq

/-- Observable effect of running a command on its receiver. -/
inductive Effect where
  | lightIsOn (light : Nat)
  | lightIsOff (light : Nat)
deriving DecidableEq

/-- `Command.execute`: delegate to the receiver. -/
def Command.execute : Command → Effect
  | .lightOn l => Effect.lightIsOn l
  | .lightOff l => Effect.lightIsOff l

/-- The invoker: its `command` field is declared but not initialised in the
source, so it is `none` until `setCommand` runs. -/
structure RemoteControl where
  command : Option Command
deriving DecidableEq

/-- `new RemoteControl()`: no command bound yet. -/
def RemoteControl.new : RemoteControl := { command := none }

/-- `RemoteControl.setCommand`: bind (or rebind) the command. -/
def RemoteControl.setCommand (c : Command) (_ : RemoteControl) : RemoteControl :=
  { command := some c }

/-- `RemoteControl.pressButton`: run the bound command; with no bound
command the source dereferences `undefined` and fails, modelled as `none`. -/
def RemoteControl.pressButton (r : RemoteControl) : Option Effect :=
  r.command.map Command.execute

/-- A call in a client session against one `RemoteControl`. -/
inductive RemoteCall where
  | set (c : Command)
  | press
deriving DecidableEq

/-- Run a sequence of calls, collecting each press outcome. -/
def runRemote : List RemoteCall → RemoteControl → RemoteControl × List (Option Effect)
  | [], r => (r, [])
  | RemoteCall.set c :: rest, r => runRemote rest (r.setCommand c)
  | RemoteCall.press :: rest, r =>
      ((runRemote rest r).1, r.pressButton :: (runRemote rest r).2)

/-! ## Adapter: payment gateways -/

/-- The PayPal service (a reference identity). -/
structure PayPal where
  id : Nat
deriving DecidableEq

/-- The Stripe service (a reference identity). -/
structure Stripe where
  id : Nat
deriving DecidableEq

/-- The native call an adapter forwards to, with its argument. -/
inductive PaymentEvent where
  | paypalSent (svc : Nat) (amount : Int)
  | stripeCharged (svc : Nat) (amount : Int)
deriving DecidableEq

/-- `PayPal.sendPayment`: PayPal's native operation. -/
def PayPal.sendPayment (p : PayPal) (amount : Int) : PaymentEvent :=
  PaymentEvent.paypalSent p.id amount

/-- `Stripe.chargePayment`: Stripe's native operation. -/
def Stripe.chargePayment (s : Stripe) (amount : Int) : PaymentEvent :=
  PaymentEvent.stripeCharged s.id amount

/-- Adapter holding a `PayPal` instance. -/
structure PayPalAdapter where
  paypal : PayPal
deriving DecidableEq

/-- `PayPalAdapter.makePayment`: delegate to `sendPayment` unchanged. -/
def PayPalAdapter.makePayment (a : PayPalAdapter) (amount : Int) : PaymentEvent :=
  a.paypal.sendPayment amount

/-- Adapter holding a `Stripe` instance. -/
structure StripeAdapter where
  stripe : Stripe
deriving DecidableEq

/-- `StripeAdapter.makePayment`: delegate to `chargePayment` unchanged. -/
def StripeAdapter.makePayment (a : StripeAdapter) (amount : Int) : PaymentEvent :=
  a.stripe.chargePayment amount

/-! ## Decorator: coffee -/

/-- A coffee is the base `Espresso` or a decorator wrapping another coffee. -/
inductive Coffee where
  | espresso
  | milkDecorator (c : Coffee)
  | sugarDecorator (c : Coffee)
deriving DecidableEq

/-- `cost()`: Espresso returns 50; each decorator adds its fixed surcharge
to the wrapped coffee's cost. -/
def Coffee.cost : Coffee → Nat
  | .espresso => 50
  | .milkDecorator c => c.cost + 10
  | .sugarDecorator c => c.cost + 5

/-- `description()`: Espresso returns "Espresso"; each decorator appends
its label to the wrapped coffee's description. -/
def Coffee.description : Coffee → String
  | .espresso => "Espresso"
  | .milkDecorator c => c.description ++ ", Milk"
  | .sugarDecorator c => c.description ++ ", Sugar"

/-! ## Theorems -/

/-- Once an instance is cached, every further call returns it and leaves
the state unchanged. -/
theorem callGetInstance_cached (n : Nat) (i : Nat) (s : SingletonState)
    (h : s.cached = some i) : callGetInstance n s = (List.replicate n i, s) := by
  induction n with
  | zero => rfl
  | succ m ih =>
      have hg : getInstance s = (i, s) := by
        simp only [getInstance, h]
      simp only [callGetInstance, hg, ih, List.replicate_succ]

/-- Claim C1: from process start, calling `getInstance` `n` times (n >= 1)
returns the same reference on every call — the list of results is the first
result repeated — and exactly one instance is ever constructed. -/
theorem getInstance_singleton (n : Nat) (h : 1 <= n) :
    (callGetInstance n SingletonState.start).1 = List.replicate n 0 /\
    (callGetInstance n SingletonState.start).2.constructions = 1 := by
  obtain ⟨m, rfl⟩ : ∃ m, n = m + 1 := ⟨n - 1, (Nat.succ_pred_eq_of_pos h).symm⟩
  have hc : callGetInstance m
      { nextId := 1, cached := some 0, constructions := 1 }
      = (List.replicate m 0,
         { nextId := 1, cached := some 0, constructions := 1 }) :=
    callGetInstance_cached m 0 _ rfl
  simp only [callGetInstance, getInstance, SingletonState.start, Nat.zero_add,
    hc, List.replicate_succ]
  exact ⟨trivial, trivial⟩

/-- Witness for C1 at n = 3. -/
theorem getInstance_singleton_witness :
    (callGetInstance 3 SingletonState.start).1 = List.replicate 3 0 /\
    (callGetInstance 3 SingletonState.start).2.constructions = 1 :=
  getInstance_singleton 3 (by decide)

/-- Claim C2: the factory returns a Car (car behavior) for tag "car", a
Bike (bike behavior) for tag "bike", and errors with the
unsupported-variant message on every other tag being no vehicle. -/
theorem createVehicle_spec :
    createVehicle "car" = Except.ok Vehicle.car /\
    Vehicle.drive Vehicle.car = "Driving a car" /\
    createVehicle "bike" = Except.ok Vehicle.bike /\
    Vehicle.drive Vehicle.bike = "Riding a bike" /\
    forall tag : String, tag ≠ "car" -> tag ≠ "bike" ->
      createVehicle tag = Except.error "Vehicle type not supported" := by
  refine ⟨rfl, rfl, rfl, rfl, ?_⟩
  intro tag h1 h2
  simp [createVehicle, h1, h2]

/-- Witness for C2 at the unrecognized tag "truck". -/
theorem createVehicle_spec_witness :
    createVehicle "truck" = Except.error "Vehicle type not supported" :=
  createVehicle_spec.2.2.2.2 "truck" (by decide) (by decide)

/-- Counterexample to C3 as stated: pressing the button on a fresh
`RemoteControl`, with no prior `setCommand`, produces no effect — the
source dereferences an uninitialised `command` and fails. -/
theorem pressButton_unset_fails :
    RemoteControl.pressButton RemoteControl.new = none := rfl

/-- Once some command is bound, every press in any further call sequence
succeeds. -/
theorem runRemote_safe (calls : List RemoteCall) (r : RemoteControl)
    (h : r.command.isSome = true) :
    ((runRemote calls r).2).all Option.isSome = true := by
  induction calls generalizing r with
  | nil => rfl
  | cons c rest ih =>
      cases c with
      | set c2 => exact ih (r.setCommand c2) rfl
      | press =>
          cases hr : r.command with
          | none => rw [hr] at h; exact absurd h (by simp)
          | some c2 =>
              simp [runRemote, RemoteControl.pressButton, hr, ih r h]

/-- Claim C3 (amended): every operation is total except
`RemoteControl.pressButton` before any `setCommand`; in any sequence of
calls that binds a command first, no press can fail. -/
theorem pressButton_total_after_set (c : Command) (calls : List RemoteCall)
    (r : RemoteControl) :
    ((runRemote (RemoteCall.set c :: calls) r).2).all Option.isSome = true :=
  runRemote_safe calls (r.setCommand c) rfl

/-- Claim C4: `setPrice` stores the new price, keeps the subscriber list,
and notifies every subscriber with the new value in subscription order; in
particular with two subscribers, `setPrice 105` invokes each exactly once
with 105, first subscriber first. -/
theorem setPrice_updates_then_notifies :
    (forall (s : Stock) (p : Int),
      (Stock.setPrice p s).1.price = p /\
      (Stock.setPrice p s).1.observers = s.observers /\
      (Stock.setPrice p s).2 = s.observers.map (fun o => (o, p))) /\
    Stock.setPrice 105 (Stock.addObserver 2 (Stock.addObserver 1 Stock.new))
      = ({ observers := [1, 2], price := 105 }, [(1, 105), (2, 105)]) :=
  ⟨fun _ _ => ⟨rfl, rfl, rfl⟩, rfl⟩

/-- Claim C5: `removeObserver o` removes every occurrence of `o` (duplicates
included), keeps the other subscribers in order and with their
multiplicities, and a subsequent `setPrice` never notifies `o`. -/
theorem removeObserver_removes_all (o : Nat) (s : Stock) :
    (Stock.removeObserver o s).observers.count o = 0 /\
    List.Sublist (Stock.removeObserver o s).observers s.observers /\
    (forall x : Nat, x ≠ o ->
      (Stock.removeObserver o s).observers.count x = s.observers.count x) /\
    (forall p : Int,
      ((Stock.setPrice p (Stock.removeObserver o s)).2).all
        (fun e => e.1 != o) = true) := by
  refine ⟨?_, ?_, ?_, ?_⟩
  · simp [Stock.removeObserver, List.count_eq_zero, List.mem_filter]
  · exact List.filter_sublist s.observers
  · intro x hx
    simp [Stock.removeObserver, List.count_filter, hx]
  · intro p
    simp only [Stock.setPrice, Stock.notifyObservers, Stock.removeObserver,
      List.all_eq_true, List.mem_map, List.mem_filter]
    intro e he
    obtain ⟨x, ⟨_, hxo⟩, hxe⟩ := he
    rw [← hxe]
    exact hxo

/-- Witness for C5 on the list [1, 2, 1]: removing observer 1 leaves no
occurrence of 1 and keeps observer 2's count. -/
theorem removeObserver_removes_all_witness :
    (Stock.removeObserver 1 { observers := [1, 2, 1], price := 100 }).observers.count 1 = 0 /\
    (Stock.removeObserver 1 { observers := [1, 2, 1], price := 100 }).observers.count 2
      = List.count 2 [1, 2, 1] :=
  ⟨(removeObserver_removes_all 1 { observers := [1, 2, 1], price := 100 }).1,
   (removeObserver_removes_all 1 { observers := [1, 2, 1], price := 100 }).2.2.1 2
     (by decide)⟩

/-- Claim C6: Espresso wrapped in Milk then Sugar costs 65 and is described
"Espresso, Milk, Sugar". -/
theorem espresso_milk_sugar :
    Coffee.cost (Coffee.sugarDecorator (Coffee.milkDecorator Coffee.espresso)) = 65 /\
    Coffee.description (Coffee.sugarDecorator (Coffee.milkDecorator Coffee.espresso))
      = "Espresso, Milk, Sugar" :=
  ⟨rfl, rfl⟩

/-- Claim C7: at every nesting depth, each decorator computes the wrapped
result first and adds its fixed surcharge (Milk +10, Sugar +5) or appends
its label (", Milk", ", Sugar"). -/
theorem decorator_equations (c : Coffee) :
    (Coffee.milkDecorator c).cost = c.cost + 10 /\
    (Coffee.milkDecorator c).description = c.description ++ ", Milk" /\
    (Coffee.sugarDecorator c).cost = c.cost + 5 /\
    (Coffee.sugarDecorator c).description = c.description ++ ", Sugar" :=
  ⟨rfl, rfl, rfl, rfl⟩

/-- Claim C8: after `setCommand c`, pressing invokes exactly `c`'s execute
effect; rebinding to `c2` makes the next press invoke exactly `c2`'s
effect, with no other change to the invoker. -/
theorem remote_binding_and_rebinding (c c2 : Command) (r : RemoteControl) :
    (r.setCommand c).pressButton = some c.execute /\
    ((r.setCommand c).setCommand c2).pressButton = some c2.execute :=
  ⟨rfl, rfl⟩

/-- Claim C9: each adapter's `makePayment` delegates to its wrapped
service's native operation with the amount unchanged. -/
theorem adapter_delegates (p : PayPal) (st : Stripe) (amount : Int) :
    (PayPalAdapter.mk p).makePayment amount = p.sendPayment amount /\
    (PayPalAdapter.mk p).makePayment amount = PaymentEvent.paypalSent p.id amount /\
    (StripeAdapter.mk st).makePayment amount = st.chargePayment amount /\
    (StripeAdapter.mk st).makePayment amount = PaymentEvent.stripeCharged st.id amount :=
  ⟨rfl, rfl, rfl, rfl⟩

/-- Claim C10: `setPrice` notifies every current subscriber unconditionally,
with no change-detection guard: the invocation list always covers the whole
subscriber list, even when the new price equals the stored one (here the
stored price is already 100 and `setPrice 100` still notifies). -/
theorem setPrice_no_change_guard :
    (forall (s : Stock) (p : Int),
      ((Stock.setPrice p s).2).length = s.observers.length) /\
    (forall s : Stock,
      (Stock.setPrice s.price s).2 = s.observers.map (fun o => (o, s.price))) /\
    (Stock.addObserver 1 Stock.new).price = 100 /\
    (Stock.setPrice 100 (Stock.addObserver 1 Stock.new)).2 = [(1, 100)] := by
  refine ⟨fun s p => ?_, fun s => rfl, rfl, rfl⟩
  simp [Stock.setPrice, Stock.notifyObservers]
